import Mathlib

/-!
Verification of the session lifecycle manager in `src/app.py`.

The program keeps an in-memory registry `active_sessions` (a Python dict
from a short session id to a record dict), a bounded status log
`status_log_messages`, and two lifecycle operations: `launch_firefox`
(create a session: generate an id, build Traefik routing labels, run a
container, insert a registry record) and `stop_firefox` (pop the registry
record, then stop the container).

Modelling conventions:
- Python dicts are association lists with unique keys; `d[k] = v`
  replaces in place or appends, `d.pop(k, None)` removes the key's entry.
- Calls to the external Docker engine (`client.containers.run/get`,
  `container.stop/remove`) are modelled by outcome oracles passed as
  arguments (which exception, if any, the call raised), and each
  operation additionally returns the list of engine calls it performed.
- The `[{elapsed}s] ` wall-clock prefix that `add_status` puts on each
  message comes from `os.times()` (ambient I/O); it is elided, the log
  holds the message text.  `logging` calls are I/O and elided as well.
- The `if not client:` guard (Docker daemon unreachable at startup) is
  outside the modelled operations; all claims concern the normal paths.
-/

/-- Configuration constant `FIREFOX_IMAGE` (src/app.py line 22). -/
def FIREFOX_IMAGE : String := "jlesage/firefox:latest"

/-- Configuration constant `FIREFOX_INTERNAL_PORT` (src/app.py line 24):
the internal noVNC web UI port, kept as a string as in the source. -/
def FIREFOX_INTERNAL_PORT : String := "5800"

/-- Configuration constant `DOCKER_NETWORK` (src/app.py line 26). -/
def DOCKER_NETWORK : String := "proxy_network"

/-- A registry record, the dict literal
`{'container_id': container.id, 'container_name': container_name}`
stored at src/app.py line 162. -/
structure SessionRecord where
  container_id : String
  container_name : String
deriving DecidableEq

/-- The record viewed as the Python dict it is in the source: an ordered
list of key/value pairs (src/app.py line 162 and the format comment on
line 43). -/
def SessionRecord.toDict (r : SessionRecord) : List (String × String) :=
  [("container_id", r.container_id), ("container_name", r.container_name)]

/-- The registry `active_sessions` (src/app.py line 44): a Python dict
from session id to record, as an ordered association list. -/
abbrev Registry := List (String × SessionRecord)

/-- Python dict lookup `d[k]` / `k in d` support: first (and in a real
dict, only) binding for the key. -/
def dictGet (k : String) : Registry → Option SessionRecord
  | [] => none
  | p :: rest => if p.1 = k then some p.2 else dictGet k rest

/-- Python dict assignment `d[k] = v`: replace the key's binding in
place, preserving its position, or append a fresh binding at the end. -/
def dictInsert (k : String) (v : SessionRecord) : Registry → Registry
  | [] => [(k, v)]
  | p :: rest => if p.1 = k then (k, v) :: rest else p :: dictInsert k v rest

/-- Removal of a key's binding, the mutation performed by
`d.pop(k, ...)`.  A Python dict holds at most one binding per key; on
such states removing the key's entry is exactly dropping every pair
whose key matches. -/
def dictRemove (k : String) : Registry → Registry
  | [] => []
  | p :: rest => if p.1 = k then dictRemove k rest else p :: dictRemove k rest

/-- Python `d.pop(k, None)` (src/app.py line 189): return the stored
value (or `none`) together with the dict after the mutation. -/
def dictPop (k : String) (d : Registry) : Option SessionRecord × Registry :=
  match dictGet k d with
  | some v => (some v, dictRemove k d)
  | none => (none, d)

/-- One bounded-iteration step of the
`while len(status_log_messages) > 10: status_log_messages.pop()` loop of
`add_status` (src/app.py lines 107-108); Python `pop()` with no index
removes the last element (`dropLast`).  The loop iterates at most
`len` times, so an explicit iteration budget makes it structural. -/
def popWhileGo : Nat → List String → List String
  | 0, l => l
  | n + 1, l => if l.length > 10 then popWhileGo n (l.dropLast) else l

/-- The trimming loop of `add_status` (src/app.py lines 107-108). -/
def popWhile (l : List String) : List String :=
  popWhileGo l.length l

/-- The `add_status` helper (src/app.py lines 103-108): insert the
message at the front of the log, then trim the log to at most 10
entries by popping from the end. -/
def add_status (message : String) (log : List String) : List String :=
  popWhile (message :: log)

/-- Derivation `container_name = f"firefox-session-{session_id}"`
(src/app.py line 127). -/
def container_name_of (session_id : String) : String :=
  "firefox-session-" ++ session_id

/-- The Traefik label dict built at src/app.py lines 131-143, with the
backend port as a parameter; `launch_firefox` instantiates it at the
global `FIREFOX_INTERNAL_PORT`.  This is the route-descriptor
generation: path-prefix router on entrypoint `web`, backend service
port, and a strip-prefix middleware, all named from the session id. -/
def generateRouteLabels (session_id : String) (port : String) : List (String × String) :=
  let container_name := container_name_of session_id
  [ ("traefik.enable", "true"),
    ("traefik.http.routers." ++ container_name ++ ".rule",
      "PathPrefix(`/session/" ++ session_id ++ "`)"),
    ("traefik.http.routers." ++ container_name ++ ".entrypoints", "web"),
    ("traefik.http.services." ++ container_name ++ ".loadbalancer.server.port", port),
    ("traefik.http.routers." ++ container_name ++ ".middlewares",
      "strip-session-" ++ session_id),
    ("traefik.http.middlewares.strip-session-" ++ session_id ++ ".stripprefix.prefixes",
      "/session/" ++ session_id) ]

/-- The arguments of the `client.containers.run(...)` call at
src/app.py lines 147-161. -/
structure RunArgs where
  image : String
  detach : Bool
  auto_remove : Bool
  name : String
  labels : List (String × String)
  network : String
  environment : List (String × String)
deriving DecidableEq

/-- The concrete `containers.run` arguments `launch_firefox` passes for
a given session id (src/app.py lines 147-161). -/
def launchRunArgs (session_id : String) : RunArgs :=
  { image := FIREFOX_IMAGE,
    detach := true,
    auto_remove := true,
    name := container_name_of session_id,
    labels := generateRouteLabels session_id FIREFOX_INTERNAL_PORT,
    network := DOCKER_NETWORK,
    environment := [("TZ", "America/Toronto")] }

/-- A call made to the Docker engine, recorded so that theorems can
speak about which engine operations an execution performed. -/
inductive EngineCall where
  | runContainer (args : RunArgs)
  | getContainer (name_or_id : String)
  | removeContainer (name_or_id : String) (force : Bool)
  | stopContainer (name_or_id : String) (timeout : Nat)
deriving DecidableEq

/-- Outcome of the `client.containers.run` call in `launch_firefox`
(src/app.py lines 147-178): success returns a container (its `.id` and
`.short_id`), or the call raises `docker.errors.APIError`, or some
other exception. -/
inductive LaunchResult where
  | success (container_id : String) (short_id : String)
  | apiError (msg : String)
  | otherError (msg : String)
deriving DecidableEq

/-- Outcome of the cleanup block run on `APIError`
(src/app.py lines 168-175): `client.containers.get(container_name)`
followed by `remove(force=True)`; `NotFound` from the get is passed
over, any other exception (from the get or from the remove) lands in
the generic cleanup-error handler. -/
inductive CleanupResult where
  | removed
  | notFound
  | getError (msg : String)
  | removeError (msg : String)
deriving DecidableEq

/-- Outcome of `client.containers.get(container_id)` followed by
`container.stop(timeout=5)` in `stop_firefox` (src/app.py lines
194-206).  `stopReached` records whether the exception came from the
`stop` call itself (after a successful `get`) or from the `get`. -/
inductive StopResult where
  | stopped
  | notFound (stopReached : Bool)
  | apiError (stopReached : Bool) (msg : String)
  | otherError (stopReached : Bool) (msg : String)
deriving DecidableEq

/-- The mutable program state the lifecycle operations touch:
`active_sessions` (src/app.py line 44) and `status_log_messages`
(src/app.py line 102). -/
structure AppState where
  active_sessions : Registry
  status_log : List String
deriving DecidableEq

/-- The initial state: empty registry, empty status log
(src/app.py lines 44 and 102). -/
def initState : AppState :=
  { active_sessions := [], status_log := [] }

/-- The `launch_firefox` handler (src/app.py lines 120-181), the
create operation.  The generated session id (`str(uuid.uuid4())[:8]`,
line 126) and the engine outcomes are oracle inputs.  Returns the new
state and the engine calls performed. -/
def launch_firefox (session_id : String) (res : LaunchResult) (cleanup : CleanupResult)
    (st : AppState) : AppState × List EngineCall :=
  let container_name := container_name_of session_id
  let log0 := add_status ("Attempting to launch container \x27" ++ container_name ++
    "\x27 for session " ++ session_id) st.status_log
  match res with
  | .success container_id short_id =>
    ({ active_sessions :=
         dictInsert session_id
           { container_id := container_id, container_name := container_name }
           st.active_sessions,
       status_log := add_status ("Launched container " ++ short_id ++ " (\x27" ++
         container_name ++ "\x27) for session " ++ session_id) log0 },
     [EngineCall.runContainer (launchRunArgs session_id)])
  | .apiError e =>
    let log1 := add_status ("ERROR launching container: " ++ e) log0
    match cleanup with
    | .removed =>
      ({ active_sessions := st.active_sessions,
         status_log := add_status ("Cleaned up potentially failed container \x27" ++
           container_name ++ "\x27") log1 },
       [EngineCall.runContainer (launchRunArgs session_id),
        EngineCall.getContainer container_name,
        EngineCall.removeContainer container_name true])
    | .notFound =>
      ({ active_sessions := st.active_sessions, status_log := log1 },
       [EngineCall.runContainer (launchRunArgs session_id),
        EngineCall.getContainer container_name])
    | .getError ce =>
      ({ active_sessions := st.active_sessions,
         status_log := add_status ("ERROR during cleanup of failed container \x27" ++
           container_name ++ "\x27: " ++ ce) log1 },
       [EngineCall.runContainer (launchRunArgs session_id),
        EngineCall.getContainer container_name])
    | .removeError ce =>
      ({ active_sessions := st.active_sessions,
         status_log := add_status ("ERROR during cleanup of failed container \x27" ++
           container_name ++ "\x27: " ++ ce) log1 },
       [EngineCall.runContainer (launchRunArgs session_id),
        EngineCall.getContainer container_name,
        EngineCall.removeContainer container_name true])
  | .otherError e =>
    ({ active_sessions := st.active_sessions,
       status_log := add_status ("ERROR: Unexpected error launching container: " ++ e) log0 },
     [EngineCall.runContainer (launchRunArgs session_id)])

/-- The `stop_firefox` handler (src/app.py lines 183-210), the stop
operation: pop the registry record first, then (only if one was found)
stop the container with a 5 second timeout.  On `APIError` the record
is not re-inserted (the commented-out decision at line 204). -/
def stop_firefox (session_id : String) (res : StopResult) (st : AppState) :
    AppState × List EngineCall :=
  match dictPop session_id st.active_sessions with
  | (some session_info, rest) =>
    let container_id := session_info.container_id
    let container_name := session_info.container_name
    let log0 := add_status ("Attempting to stop container " ++ container_id ++
      " (\x27" ++ container_name ++ "\x27) for session " ++ session_id) st.status_log
    match res with
    | .stopped =>
      ({ active_sessions := rest,
         status_log := add_status ("Stopped container \x27" ++ container_name ++ "\x27") log0 },
       [EngineCall.getContainer container_id, EngineCall.stopContainer container_id 5])
    | .notFound r =>
      ({ active_sessions := rest,
         status_log := add_status ("Warning: Container \x27" ++ container_name ++
           "\x27 already removed or not found.") log0 },
       EngineCall.getContainer container_id ::
         (if r then [EngineCall.stopContainer container_id 5] else []))
    | .apiError r e =>
      ({ active_sessions := rest,
         status_log := add_status ("ERROR stopping container \x27" ++ container_name ++
           "\x27: " ++ e) log0 },
       EngineCall.getContainer container_id ::
         (if r then [EngineCall.stopContainer container_id 5] else []))
    | .otherError r e =>
      ({ active_sessions := rest,
         status_log := add_status ("ERROR: Unexpected error stopping container \x27" ++
           container_name ++ "\x27: " ++ e) log0 },
       EngineCall.getContainer container_id ::
         (if r then [EngineCall.stopContainer container_id 5] else []))
  | (none, _) =>
    ({ active_sessions := st.active_sessions,
       status_log := add_status ("Warning: Session ID " ++ session_id ++
         " not found. Cannot stop.") st.status_log },
     [])

/-- The session list the front end renders (`sessions=active_sessions`
at src/app.py line 114): a snapshot of the registry. -/
def list_sessions (st : AppState) : Registry :=
  st.active_sessions

/-- A lifecycle operation with its oracle inputs, for stating
properties over arbitrary operation sequences. -/
inductive Op where
  | create (session_id : String) (res : LaunchResult) (cleanup : CleanupResult)
  | stop (session_id : String) (res : StopResult)
deriving DecidableEq

/-- Apply one operation to the state (discarding the engine-call
trace). -/
def applyOp (st : AppState) : Op → AppState
  | .create s r c => (launch_firefox s r c st).1
  | .stop s r => (stop_firefox s r st).1

/-- Run a sequence of lifecycle operations from a state. -/
def runOps (st : AppState) (ops : List Op) : AppState :=
  ops.foldl applyOp st

/-! ### Basic lemmas about the status log -/

/-- The trimming loop computes an initial segment: with enough
iteration budget it keeps exactly the first 10 entries. -/
lemma popWhileGo_eq_take (n : Nat) : ∀ (l : List String), l.length ≤ n + 10 →
    popWhileGo n l = l.take 10 := by
  induction n with
  | zero =>
    intro l h
    simp only [popWhileGo]
    exact (List.take_of_length_le (by omega)).symm
  | succ n ih =>
    intro l h
    by_cases hl : l.length > 10
    · simp only [popWhileGo, if_pos hl]
      rw [ih l.dropLast (by rw [List.length_dropLast]; omega)]
      rw [List.dropLast_eq_take, List.take_take]
      congr 1
      omega
    · simp only [popWhileGo, if_neg hl]
      exact (List.take_of_length_le (by omega)).symm

/-- Appending to the status log keeps the newest message in front and
the first 10 entries overall. -/
lemma add_status_take (m : String) (log : List String) :
    add_status m log = (m :: log).take 10 := by
  unfold add_status popWhile
  exact popWhileGo_eq_take _ _ (by omega)

/-- The status log never exceeds 10 entries after an append. -/
lemma length_add_status_le (m : String) (log : List String) :
    (add_status m log).length ≤ 10 := by
  rw [add_status_take, List.length_take]
  omega

/-- The message just appended is in the log. -/
lemma mem_add_status_head (m : String) (log : List String) :
    m ∈ add_status m log := by
  rw [add_status_take, show (10 : Nat) = 9 + 1 from rfl, List.take_succ_cons]
  exact List.mem_cons_self _ _

/-- A message is still in the log after one further append. -/
lemma mem_add_status_head2 (m c : String) (log : List String) :
    m ∈ add_status c (add_status m log) := by
  rw [add_status_take, add_status_take,
    show (10 : Nat) = 9 + 1 from rfl, List.take_succ_cons]
  apply List.mem_cons_of_mem
  rw [List.take_succ_cons, show (9 : Nat) = 8 + 1 from rfl, List.take_succ_cons]
  exact List.mem_cons_self _ _

/-! ### Basic lemmas about the registry dictionary -/

/-- Lookup misses exactly when the key is absent from the key list. -/
lemma dictGet_eq_none_iff (k : String) (d : Registry) :
    dictGet k d = none ↔ k ∉ d.map Prod.fst := by
  induction d with
  | nil => simp [dictGet]
  | cons p rest ih =>
    by_cases hp : p.1 = k
    · simp [dictGet, hp]
    · simp [dictGet, hp, ih, Ne.symm hp]

/-- After removing a key, lookup of that key misses. -/
lemma dictGet_dictRemove_self (k : String) (d : Registry) :
    dictGet k (dictRemove k d) = none := by
  induction d with
  | nil => rfl
  | cons p rest ih =>
    by_cases hp : p.1 = k
    · simp [dictRemove, hp, ih]
    · simp [dictRemove, dictGet, hp, ih]

/-- Removing one key leaves lookups of every other key unchanged. -/
lemma dictGet_dictRemove_ne (k j : String) (h : j ≠ k) (d : Registry) :
    dictGet j (dictRemove k d) = dictGet j d := by
  induction d with
  | nil => rfl
  | cons p rest ih =>
    by_cases hp : p.1 = k
    · simp [dictRemove, dictGet, hp, ih, Ne.symm h]
    · simp only [dictRemove, if_neg hp, dictGet]
      by_cases hj : p.1 = j
      · simp [hj]
      · simp [hj, ih]

/-- Assignment then lookup of the same key yields the assigned value,
whether or not the key was already bound (Python overwrite
semantics). -/
lemma dictGet_dictInsert_self (k : String) (v : SessionRecord) (d : Registry) :
    dictGet k (dictInsert k v d) = some v := by
  induction d with
  | nil => simp [dictInsert, dictGet]
  | cons p rest ih =>
    by_cases hp : p.1 = k
    · simp [dictInsert, dictGet, hp]
    · simp [dictInsert, dictGet, hp, ih]

/-- Assignment leaves the key list unchanged when the key was bound,
and appends the key otherwise. -/
lemma keys_dictInsert (k : String) (v : SessionRecord) (d : Registry) :
    (dictInsert k v d).map Prod.fst =
      if k ∈ d.map Prod.fst then d.map Prod.fst else d.map Prod.fst ++ [k] := by
  induction d with
  | nil => simp [dictInsert]
  | cons p rest ih =>
    by_cases hp : p.1 = k
    · simp [dictInsert, hp]
    · by_cases hk : k ∈ rest.map Prod.fst
      · simp [dictInsert, hp, ih, hk, Ne.symm hp]
      · simp [dictInsert, hp, ih, hk, Ne.symm hp]

/-- Removal yields a sublist of the original association list. -/
lemma dictRemove_sublist (k : String) (d : Registry) :
    (dictRemove k d).Sublist d := by
  induction d with
  | nil => simp [dictRemove]
  | cons p rest ih =>
    by_cases hp : p.1 = k
    · simp only [dictRemove, if_pos hp]
      exact ih.cons p
    · simp only [dictRemove, if_neg hp]
      exact ih.cons₂ p

/-- Assignment preserves uniqueness of the keys. -/
lemma nodup_keys_dictInsert (k : String) (v : SessionRecord) (d : Registry)
    (h : (d.map Prod.fst).Nodup) : ((dictInsert k v d).map Prod.fst).Nodup := by
  rw [keys_dictInsert]
  by_cases hk : k ∈ d.map Prod.fst
  · simpa [hk] using h
  · simp only [if_neg hk]
    rw [List.nodup_append]
    exact ⟨h, List.nodup_singleton k, List.disjoint_singleton.mpr hk⟩

/-- Removal preserves uniqueness of the keys. -/
lemma nodup_keys_dictRemove (k : String) (d : Registry)
    (h : (d.map Prod.fst).Nodup) : ((dictRemove k d).map Prod.fst).Nodup :=
  List.Nodup.sublist (List.Sublist.map Prod.fst (dictRemove_sublist k d)) h

/-! ### Unfolding lemmas for the lifecycle operations -/

/-- The registry after a create: a successful launch assigns the new
record; every failure path leaves the registry untouched. -/
lemma launch_firefox_sessions (S : String) (res : LaunchResult) (c : CleanupResult)
    (st : AppState) :
    (launch_firefox S res c st).1.active_sessions =
      match res with
      | .success cid _ =>
        dictInsert S { container_id := cid, container_name := container_name_of S }
          st.active_sessions
      | _ => st.active_sessions := by
  cases res <;> cases c <;> rfl

/-- The registry after a stop: the popped key's entry is removed when
present; an absent key leaves the registry untouched. -/
lemma stop_firefox_sessions (S : String) (res : StopResult) (st : AppState) :
    (stop_firefox S res st).1.active_sessions =
      match dictGet S st.active_sessions with
      | some _ => dictRemove S st.active_sessions
      | none => st.active_sessions := by
  cases hg : dictGet S st.active_sessions with
  | some v => cases res <;> simp [stop_firefox, dictPop, hg]
  | none => simp [stop_firefox, dictPop, hg]

/-- A stop on an id absent from the registry: unchanged registry, one
warning appended, no engine call. -/
lemma stop_firefox_none (S : String) (res : StopResult) (st : AppState)
    (hg : dictGet S st.active_sessions = none) :
    stop_firefox S res st =
      ({ active_sessions := st.active_sessions,
         status_log := add_status ("Warning: Session ID " ++ S ++
           " not found. Cannot stop.") st.status_log }, []) := by
  simp [stop_firefox, dictPop, hg]

/-! ### Invariant machinery for reachable states -/

/-- One lifecycle operation preserves uniqueness of the registry's
session ids. -/
lemma nodup_keys_applyOp (st : AppState) (op : Op)
    (h : (st.active_sessions.map Prod.fst).Nodup) :
    ((applyOp st op).active_sessions.map Prod.fst).Nodup := by
  cases op with
  | create S r c =>
    show (((launch_firefox S r c st).1.active_sessions).map Prod.fst).Nodup
    rw [launch_firefox_sessions]
    cases r with
    | success cid sid => exact nodup_keys_dictInsert _ _ _ h
    | apiError e => exact h
    | otherError e => exact h
  | stop S r =>
    show (((stop_firefox S r st).1.active_sessions).map Prod.fst).Nodup
    rw [stop_firefox_sessions]
    cases hg : dictGet S st.active_sessions with
    | some v => exact nodup_keys_dictRemove _ _ h
    | none => exact h

/-- Operation sequences preserve uniqueness of the registry's session
ids. -/
lemma nodup_keys_runOps (ops : List Op) : ∀ (st : AppState),
    (st.active_sessions.map Prod.fst).Nodup →
    ((runOps st ops).active_sessions.map Prod.fst).Nodup := by
  induction ops with
  | nil => exact fun st h => h
  | cons op rest ih =>
    intro st h
    exact ih (applyOp st op) (nodup_keys_applyOp st op h)

/-- C1: for every sequence of create and stop operations starting from
the empty registry, the registry never contains two records with the
same session id — at every reachable state the list of session ids is
duplicate-free, so each session id maps to at most one
`SessionRecord`. -/
theorem registry_session_ids_unique (ops : List Op) :
    ((runOps initState ops).active_sessions.map Prod.fst).Nodup :=
  nodup_keys_runOps ops initState (by simp [initState])

/-- C9: the status/event log is bounded and ordered.  `add_status`
keeps exactly the first 10 entries of the newest-first log (so the
oldest entries are discarded first and the surviving entries keep
their relative order), hence the log length never exceeds 10, and any
sequence of appends starting from the empty log stays within the
bound. -/
theorem status_log_bounded_ordered (m : String) (log : List String) :
    add_status m log = (m :: log).take 10 ∧
    (add_status m log).length ≤ 10 ∧
    ∀ msgs : List String,
      ((msgs.foldl (fun acc x => add_status x acc) []).length ≤ 10) := by
  refine ⟨add_status_take m log, length_add_status_le m log, ?_⟩
  intro msgs
  have key : ∀ (ms : List String) (acc : List String), acc.length ≤ 10 →
      ((ms.foldl (fun acc x => add_status x acc) acc).length ≤ 10) := by
    intro ms
    induction ms with
    | nil => intro acc h; simpa using h
    | cons x xs ih =>
      intro acc h
      rw [List.foldl_cons]
      exact ih (add_status x acc) (length_add_status_le x acc)
  exact key msgs [] (by simp)

/-- C3: for every session id present in the registry, after a stop
call on that id the id is absent from the registry (hence from the
rendered session list), regardless of the engine outcome: the record
is popped before the engine is consulted, and no failure branch
(engine `NotFound`, `APIError`, or any other exception) re-inserts
it. -/
theorem stop_removes_session_id (S : String) (res : StopResult) (st : AppState)
    (h : S ∈ st.active_sessions.map Prod.fst) :
    S ∉ (list_sessions (stop_firefox S res st).1).map Prod.fst := by
  have hv : ∃ v, dictGet S st.active_sessions = some v := by
    cases hcase : dictGet S st.active_sessions with
    | none => exact absurd h ((dictGet_eq_none_iff S st.active_sessions).mp hcase)
    | some v => exact ⟨v, rfl⟩
  obtain ⟨v, hv⟩ := hv
  show S ∉ ((stop_firefox S res st).1.active_sessions).map Prod.fst
  rw [stop_firefox_sessions, hv, ← dictGet_eq_none_iff]
  exact dictGet_dictRemove_self S st.active_sessions

/-- Witness for C3 at a concrete state: session `abc` is registered,
the engine stop fails with an `APIError`, and `abc` is gone from the
registry anyway. -/
theorem stop_removes_session_id_witness :
    "abc" ∈ ([("abc", SessionRecord.mk "cid0" "firefox-session-abc")] :
        Registry).map Prod.fst ∧
    "abc" ∉ (list_sessions (stop_firefox "abc" (StopResult.apiError true "boom")
      { active_sessions := [("abc", SessionRecord.mk "cid0" "firefox-session-abc")],
        status_log := [] }).1).map Prod.fst :=
  ⟨by decide,
   stop_removes_session_id "abc" (StopResult.apiError true "boom")
     { active_sessions := [("abc", SessionRecord.mk "cid0" "firefox-session-abc")],
       status_log := [] } (by decide)⟩

/-- C5: stop is idempotent.  After any stop of `S`, a second stop of
`S` performs no engine call, leaves the registry unchanged, and
appends exactly the session-not-found warning (so no second
"stop succeeded" effect is possible); and a stop whose workload is
already gone on the engine side (`NotFound`) appends the
already-removed warning, not an error entry. -/
theorem stop_idempotent (S : String) (r1 r2 : StopResult) (st st2 : AppState)
    (info : SessionRecord) (hp : dictGet S st2.active_sessions = some info) :
    (stop_firefox S r2 (stop_firefox S r1 st).1).2 = [] ∧
    (stop_firefox S r2 (stop_firefox S r1 st).1).1.active_sessions =
      (stop_firefox S r1 st).1.active_sessions ∧
    (stop_firefox S r2 (stop_firefox S r1 st).1).1.status_log =
      add_status ("Warning: Session ID " ++ S ++ " not found. Cannot stop.")
        (stop_firefox S r1 st).1.status_log ∧
    (stop_firefox S (StopResult.notFound true) st2).1.status_log =
      add_status ("Warning: Container \x27" ++ info.container_name ++
          "\x27 already removed or not found.")
        (add_status ("Attempting to stop container " ++ info.container_id ++
          " (\x27" ++ info.container_name ++ "\x27) for session " ++ S)
          st2.status_log) := by
  have habs : dictGet S (stop_firefox S r1 st).1.active_sessions = none := by
    rw [stop_firefox_sessions]
    cases hg : dictGet S st.active_sessions with
    | some v => exact dictGet_dictRemove_self S st.active_sessions
    | none => exact hg
  have hrw := stop_firefox_none S r2 (stop_firefox S r1 st).1 habs
  refine ⟨?_, ?_, ?_, ?_⟩
  · rw [hrw]
  · rw [hrw]
  · rw [hrw]
  · simp [stop_firefox, dictPop, hp]

/-- Witness for C5 at a concrete state: stopping session `s1` twice in
a row from a one-session registry, and a stop that hits engine
`NotFound`. -/
theorem stop_idempotent_witness :
    (stop_firefox "s1" StopResult.stopped
      (stop_firefox "s1" StopResult.stopped
        { active_sessions := [("s1", SessionRecord.mk "c1" "firefox-session-s1")],
          status_log := [] }).1).2 = [] ∧
    (stop_firefox "s1" StopResult.stopped
      (stop_firefox "s1" StopResult.stopped
        { active_sessions := [("s1", SessionRecord.mk "c1" "firefox-session-s1")],
          status_log := [] }).1).1.active_sessions =
      (stop_firefox "s1" StopResult.stopped
        { active_sessions := [("s1", SessionRecord.mk "c1" "firefox-session-s1")],
          status_log := [] }).1.active_sessions ∧
    (stop_firefox "s1" StopResult.stopped
      (stop_firefox "s1" StopResult.stopped
        { active_sessions := [("s1", SessionRecord.mk "c1" "firefox-session-s1")],
          status_log := [] }).1).1.status_log =
      add_status ("Warning: Session ID " ++ "s1" ++ " not found. Cannot stop.")
        (stop_firefox "s1" StopResult.stopped
          { active_sessions := [("s1", SessionRecord.mk "c1" "firefox-session-s1")],
            status_log := [] }).1.status_log ∧
    (stop_firefox "s1" (StopResult.notFound true)
      { active_sessions := [("s1", SessionRecord.mk "c1" "firefox-session-s1")],
        status_log := [] }).1.status_log =
      add_status ("Warning: Container \x27" ++
          (SessionRecord.mk "c1" "firefox-session-s1").container_name ++
          "\x27 already removed or not found.")
        (add_status ("Attempting to stop container " ++
          (SessionRecord.mk "c1" "firefox-session-s1").container_id ++
          " (\x27" ++ (SessionRecord.mk "c1" "firefox-session-s1").container_name ++
          "\x27) for session " ++ "s1")
          (AppState.mk [("s1", SessionRecord.mk "c1" "firefox-session-s1")] []).status_log) :=
  stop_idempotent "s1" StopResult.stopped StopResult.stopped
    { active_sessions := [("s1", SessionRecord.mk "c1" "firefox-session-s1")],
      status_log := [] }
    { active_sessions := [("s1", SessionRecord.mk "c1" "firefox-session-s1")],
      status_log := [] }
    (SessionRecord.mk "c1" "firefox-session-s1") (by decide)

/-- C10: stop touches only its own session.  For distinct ids `S ≠ T`
a stop of `S` leaves the registry entry of `T` (its whole record, so
both workload id and workload name) unchanged, and a stop of an `S`
absent from the registry leaves the entire registry unchanged and
performs no engine call at all. -/
theorem stop_frame_property (S T : String) (res : StopResult) (st : AppState)
    (hne : S ≠ T) :
    dictGet T (stop_firefox S res st).1.active_sessions =
      dictGet T st.active_sessions ∧
    (S ∉ st.active_sessions.map Prod.fst →
      (stop_firefox S res st).1.active_sessions = st.active_sessions ∧
      (stop_firefox S res st).2 = []) := by
  constructor
  · rw [stop_firefox_sessions]
    cases hg : dictGet S st.active_sessions with
    | some v => exact dictGet_dictRemove_ne S T (Ne.symm hne) st.active_sessions
    | none => rfl
  · intro habs
    have hg : dictGet S st.active_sessions = none :=
      (dictGet_eq_none_iff S st.active_sessions).mpr habs
    rw [stop_firefox_none S res st hg]
    exact ⟨rfl, rfl⟩

/-- Witness for C10 at a concrete state: stopping the absent id `aa`
leaves the registered session `bb` and the whole registry intact. -/
theorem stop_frame_property_witness :
    (dictGet "bb" (stop_firefox "aa" StopResult.stopped
      { active_sessions := [("bb", SessionRecord.mk "cb" "firefox-session-bb")],
        status_log := [] }).1.active_sessions =
      dictGet "bb" ([("bb", SessionRecord.mk "cb" "firefox-session-bb")] : Registry)) ∧
    ("aa" ∉ ([("bb", SessionRecord.mk "cb" "firefox-session-bb")] :
        Registry).map Prod.fst →
      (stop_firefox "aa" StopResult.stopped
        { active_sessions := [("bb", SessionRecord.mk "cb" "firefox-session-bb")],
          status_log := [] }).1.active_sessions =
        [("bb", SessionRecord.mk "cb" "firefox-session-bb")] ∧
      (stop_firefox "aa" StopResult.stopped
        { active_sessions := [("bb", SessionRecord.mk "cb" "firefox-session-bb")],
          status_log := [] }).2 = []) :=
  stop_frame_property "aa" "bb" StopResult.stopped
    { active_sessions := [("bb", SessionRecord.mk "cb" "firefox-session-bb")],
      status_log := [] } (by decide)

/-- C4: when the engine launch call raises `APIError`, the handler
leaves the registry untouched (so a fresh session id stays
unregistered), appends the launch-error entry to the status log,
always attempts the best-effort cleanup inspection of the named
workload, and — when that inspection finds the workload — removes it
with `force=True`. -/
theorem launch_error_cleanup_no_insert (S e : String) (c : CleanupResult)
    (st : AppState) (hS : S ∉ st.active_sessions.map Prod.fst) :
    (launch_firefox S (LaunchResult.apiError e) c st).1.active_sessions =
      st.active_sessions ∧
    S ∉ ((launch_firefox S (LaunchResult.apiError e) c st).1.active_sessions).map
      Prod.fst ∧
    ("ERROR launching container: " ++ e) ∈
      (launch_firefox S (LaunchResult.apiError e) c st).1.status_log ∧
    EngineCall.getContainer (container_name_of S) ∈
      (launch_firefox S (LaunchResult.apiError e) c st).2 ∧
    (c = CleanupResult.removed →
      EngineCall.removeContainer (container_name_of S) true ∈
        (launch_firefox S (LaunchResult.apiError e) c st).2) := by
  cases c with
  | removed =>
    refine ⟨rfl, hS, ?_, ?_, ?_⟩
    · exact mem_add_status_head2 _ _ _
    · simp [launch_firefox]
    · intro _
      simp [launch_firefox]
  | notFound =>
    refine ⟨rfl, hS, ?_, ?_, ?_⟩
    · exact mem_add_status_head _ _
    · simp [launch_firefox]
    · intro hcon
      exact absurd hcon (by simp)
  | getError ce =>
    refine ⟨rfl, hS, ?_, ?_, ?_⟩
    · exact mem_add_status_head2 _ _ _
    · simp [launch_firefox]
    · intro hcon
      exact absurd hcon (by simp)
  | removeError ce =>
    refine ⟨rfl, hS, ?_, ?_, ?_⟩
    · exact mem_add_status_head2 _ _ _
    · simp [launch_firefox]
    · intro _
      simp [launch_firefox]

/-- Witness for C4 at a concrete input: a launch of fresh id `abc`
fails with an `APIError`, the partially created workload is found and
force-removed, the error entry is logged, and no record exists for
`abc`. -/
theorem launch_error_cleanup_no_insert_witness :
    (launch_firefox "abc" (LaunchResult.apiError "boom") CleanupResult.removed
      initState).1.active_sessions = initState.active_sessions ∧
    "abc" ∉ ((launch_firefox "abc" (LaunchResult.apiError "boom")
      CleanupResult.removed initState).1.active_sessions).map Prod.fst ∧
    ("ERROR launching container: " ++ "boom") ∈
      (launch_firefox "abc" (LaunchResult.apiError "boom") CleanupResult.removed
        initState).1.status_log ∧
    EngineCall.getContainer (container_name_of "abc") ∈
      (launch_firefox "abc" (LaunchResult.apiError "boom") CleanupResult.removed
        initState).2 ∧
    (CleanupResult.removed = CleanupResult.removed →
      EngineCall.removeContainer (container_name_of "abc") true ∈
        (launch_firefox "abc" (LaunchResult.apiError "boom") CleanupResult.removed
          initState).2) :=
  launch_error_cleanup_no_insert "abc" "boom" CleanupResult.removed initState
    (by decide)

/-- Appending to a fixed string on the left is injective, so names
embedding the session id cannot collide for distinct ids. -/
lemma string_append_left_cancel (p : String) {a b : String}
    (h : p ++ a = p ++ b) : a = b := by
  obtain ⟨pl⟩ := p
  obtain ⟨al⟩ := a
  obtain ⟨bl⟩ := b
  have hdata : pl ++ al = pl ++ bl := congrArg String.data h
  exact congrArg String.mk (List.append_cancel_left hdata)

/-- C7: for a session id `S` and the fixed internal port, the label
set attached to the launched workload declares the routing contract —
a router matching path-prefix `/session/S` bound to the shared `web`
entrypoint, a backend service pointing at the internal port, and a
strip-prefix middleware removing `/session/S`, with both router and
middleware names embedding `S`; the launch passes exactly these labels
to the engine; and distinct session ids yield distinct router and
middleware names. -/
theorem route_metadata_contract (S T cid sid : String) (c : CleanupResult)
    (st : AppState) (hne : S ≠ T) :
    ("traefik.http.routers." ++ container_name_of S ++ ".rule",
        "PathPrefix(`/session/" ++ S ++ "`)") ∈
      generateRouteLabels S FIREFOX_INTERNAL_PORT ∧
    ("traefik.http.routers." ++ container_name_of S ++ ".entrypoints", "web") ∈
      generateRouteLabels S FIREFOX_INTERNAL_PORT ∧
    ("traefik.http.services." ++ container_name_of S ++ ".loadbalancer.server.port",
        FIREFOX_INTERNAL_PORT) ∈
      generateRouteLabels S FIREFOX_INTERNAL_PORT ∧
    ("traefik.http.routers." ++ container_name_of S ++ ".middlewares",
        "strip-session-" ++ S) ∈
      generateRouteLabels S FIREFOX_INTERNAL_PORT ∧
    ("traefik.http.middlewares.strip-session-" ++ S ++ ".stripprefix.prefixes",
        "/session/" ++ S) ∈
      generateRouteLabels S FIREFOX_INTERNAL_PORT ∧
    (launch_firefox S (LaunchResult.success cid sid) c st).2 =
      [EngineCall.runContainer (launchRunArgs S)] ∧
    (launchRunArgs S).labels = generateRouteLabels S FIREFOX_INTERNAL_PORT ∧
    container_name_of S ≠ container_name_of T ∧
    "strip-session-" ++ S ≠ "strip-session-" ++ T := by
  refine ⟨?_, ?_, ?_, ?_, ?_, rfl, rfl, ?_, ?_⟩
  · simp [generateRouteLabels]
  · simp [generateRouteLabels]
  · simp [generateRouteLabels]
  · simp [generateRouteLabels]
  · simp [generateRouteLabels]
  · intro h
    exact hne (string_append_left_cancel "firefox-session-" h)
  · intro h
    exact hne (string_append_left_cancel "strip-session-" h)

/-- Witness for C7 at concrete inputs `S = "aa"`, `T = "bb"`. -/
theorem route_metadata_contract_witness :
    ("traefik.http.routers." ++ container_name_of "aa" ++ ".rule",
        "PathPrefix(`/session/" ++ "aa" ++ "`)") ∈
      generateRouteLabels "aa" FIREFOX_INTERNAL_PORT ∧
    ("traefik.http.routers." ++ container_name_of "aa" ++ ".entrypoints", "web") ∈
      generateRouteLabels "aa" FIREFOX_INTERNAL_PORT ∧
    ("traefik.http.services." ++ container_name_of "aa" ++ ".loadbalancer.server.port",
        FIREFOX_INTERNAL_PORT) ∈
      generateRouteLabels "aa" FIREFOX_INTERNAL_PORT ∧
    ("traefik.http.routers." ++ container_name_of "aa" ++ ".middlewares",
        "strip-session-" ++ "aa") ∈
      generateRouteLabels "aa" FIREFOX_INTERNAL_PORT ∧
    ("traefik.http.middlewares.strip-session-" ++ "aa" ++ ".stripprefix.prefixes",
        "/session/" ++ "aa") ∈
      generateRouteLabels "aa" FIREFOX_INTERNAL_PORT ∧
    (launch_firefox "aa" (LaunchResult.success "cid" "sid") CleanupResult.notFound
      initState).2 = [EngineCall.runContainer (launchRunArgs "aa")] ∧
    (launchRunArgs "aa").labels = generateRouteLabels "aa" FIREFOX_INTERNAL_PORT ∧
    container_name_of "aa" ≠ container_name_of "bb" ∧
    "strip-session-" ++ "aa" ≠ "strip-session-" ++ "bb" :=
  route_metadata_contract "aa" "bb" "cid" "sid" CleanupResult.notFound initState
    (by decide)

/-- C8: route label generation is a deterministic pure total function
of the session id and backend port: it is modelled by the Lean
function `generateRouteLabels` (so it can have no side effects), two
evaluations on the same inputs agree, and for every non-empty session
id and positive port it succeeds, producing the six-entry label set
fixed by its defining equation. -/
theorem route_generation_deterministic_total (S : String) (p : Nat)
    (hS : S ≠ "") (hp : 0 < p) :
    generateRouteLabels S (toString p) = generateRouteLabels S (toString p) ∧
    (generateRouteLabels S (toString p)).length = 6 ∧
    generateRouteLabels S (toString p) =
      [ ("traefik.enable", "true"),
        ("traefik.http.routers." ++ container_name_of S ++ ".rule",
          "PathPrefix(`/session/" ++ S ++ "`)"),
        ("traefik.http.routers." ++ container_name_of S ++ ".entrypoints", "web"),
        ("traefik.http.services." ++ container_name_of S ++
          ".loadbalancer.server.port", toString p),
        ("traefik.http.routers." ++ container_name_of S ++ ".middlewares",
          "strip-session-" ++ S),
        ("traefik.http.middlewares.strip-session-" ++ S ++ ".stripprefix.prefixes",
          "/session/" ++ S) ] :=
  ⟨rfl, rfl, rfl⟩

/-- Witness for C8 at the concrete inputs of the program: an 8
character session id and the internal port 5800. -/
theorem route_generation_deterministic_total_witness :
    generateRouteLabels "abc12345" (toString 5800) =
      generateRouteLabels "abc12345" (toString 5800) ∧
    (generateRouteLabels "abc12345" (toString 5800)).length = 6 ∧
    generateRouteLabels "abc12345" (toString 5800) =
      [ ("traefik.enable", "true"),
        ("traefik.http.routers." ++ container_name_of "abc12345" ++ ".rule",
          "PathPrefix(`/session/" ++ "abc12345" ++ "`)"),
        ("traefik.http.routers." ++ container_name_of "abc12345" ++ ".entrypoints",
          "web"),
        ("traefik.http.services." ++ container_name_of "abc12345" ++
          ".loadbalancer.server.port", toString 5800),
        ("traefik.http.routers." ++ container_name_of "abc12345" ++ ".middlewares",
          "strip-session-" ++ "abc12345"),
        ("traefik.http.middlewares.strip-session-" ++ "abc12345" ++
          ".stripprefix.prefixes", "/session/" ++ "abc12345") ] :=
  route_generation_deterministic_total "abc12345" 5800 (by decide) (by decide)

/-- Counterexample to C2: a create whose generated id collides with a
registered session does not fail with any duplicate-session error and
does not regenerate — the launch proceeds and the plain dict
assignment at src/app.py line 162 overwrites the existing record.
Concretely, with `abc12345` already registered with container id
`oldcid`, a successful create of the same id leaves the registry
holding the new record, which differs from the old one. -/
theorem create_overwrites_existing_record :
    dictGet "abc12345"
      ((launch_firefox "abc12345" (LaunchResult.success "newcid" "n1")
        CleanupResult.notFound
        (AppState.mk [("abc12345", SessionRecord.mk "oldcid" "firefox-session-abc12345")]
          [])).1.active_sessions) =
      some (SessionRecord.mk "newcid" "firefox-session-abc12345") ∧
    SessionRecord.mk "newcid" "firefox-session-abc12345" ≠
      SessionRecord.mk "oldcid" "firefox-session-abc12345" := by
  decide

/-- C2 as amended: create performs no duplicate detection at the
registry insert.  On a successful launch the generated session id is
bound by plain dictionary assignment, which replaces any existing
binding for that id (so the registry still holds at most one record
per id, but a colliding create silently overwrites rather than failing
with `DuplicateSession` and regenerating; no such error exists to be
surfaced to the user). -/
theorem create_insert_is_plain_assignment (S cid sid : String) (c : CleanupResult)
    (st : AppState) :
    (launch_firefox S (LaunchResult.success cid sid) c st).1.active_sessions =
      dictInsert S (SessionRecord.mk cid (container_name_of S))
        st.active_sessions ∧
    ∀ (v : SessionRecord) (d : Registry), dictGet S (dictInsert S v d) = some v :=
  ⟨rfl, fun v d => dictGet_dictInsert_self S v d⟩

/-- Counterexample to C6: the record a successful create stores is the
two-field dict of src/app.py line 162; it carries no `status` field
(no `Running` status) and no `created_at` timestamp. -/
theorem create_record_lacks_status_and_created_at :
    dictGet "abc12345"
      ((launch_firefox "abc12345" (LaunchResult.success "cid123" "c1")
        CleanupResult.notFound initState).1.active_sessions) =
      some (SessionRecord.mk "cid123" "firefox-session-abc12345") ∧
    "status" ∉
      ((SessionRecord.mk "cid123" "firefox-session-abc12345").toDict).map Prod.fst ∧
    "created_at" ∉
      ((SessionRecord.mk "cid123" "firefox-session-abc12345").toDict).map Prod.fst := by
  decide

/-- C6 as amended: on every successful create the record inserted into
the registry carries exactly two fields — `container_id`, the workload
id returned by the launcher, and `container_name`, the name derived
deterministically from the session id; there is no status enum and no
`created_at` timestamp in the stored record. -/
theorem create_record_fields (S cid sid : String) (c : CleanupResult)
    (st : AppState) :
    (launch_firefox S (LaunchResult.success cid sid) c st).1.active_sessions =
      dictInsert S (SessionRecord.mk cid (container_name_of S))
        st.active_sessions ∧
    ((SessionRecord.mk cid (container_name_of S)).toDict).map Prod.fst =
      ["container_id", "container_name"] :=
  ⟨rfl, rfl⟩
